import Mathlib

/-!
Shallow embedding of the moderation core of bot.py (a Telegram group-manager
bot): settings store, warning ledger, admin-privilege cache, flood detector,
content filter and the group command gate.  Global mutable state (the sqlite
tables, ADMIN_CACHE, FLOOD_BUCKETS) is threaded explicitly as a BotState
record; external collaborators (time.time(), get_chat_administrators) become
parameters of each operation; the fire-and-forget Telegram enforcement calls
(ban/restrict/delete), whose results the source discards, are not part of the
observable behaviour and are omitted.
-/

namespace PCBot

/-- OWNER_ID constant from the configuration block of bot.py (line 31). -/
def OWNER_ID : Int := 5631512980

/-- ADMIN_CACHE_TTL = 10 * 60 seconds (bot.py line 41). -/
def ADMIN_CACHE_TTL : Int := 10 * 60

/-- Capacity of each flood bucket: FLOOD_BUCKETS = defaultdict(lambda: deque(maxlen=20))
(bot.py line 44). -/
def FLOOD_BUCKET_CAP : Nat := 20

/-- Chat types distinguished by is_private / is_group (bot.py lines 182-187). -/
inductive ChatType where
  | private_chat
  | group
  | supergroup
  | channel
deriving DecidableEq

/-- is_private (bot.py line 182): the effective chat has type PRIVATE. -/
def is_private (ct : ChatType) : Bool :=
  match ct with
  | ChatType.private_chat => true
  | _ => false

/-- is_group (bot.py line 186): the effective chat has type GROUP or SUPERGROUP. -/
def is_group (ct : ChatType) : Bool :=
  match ct with
  | ChatType.group => true
  | ChatType.supergroup => true
  | _ => false

/-- is_owner (bot.py line 190). -/
def is_owner (user_id : Int) : Bool := user_id == OWNER_ID

/-- One row of the chat_settings table (bot.py lines 100-115).  The sqlite
INTEGER 0/1 toggles are represented as Bool (the source only ever stores 0 or 1
and tests them for truthiness). -/
structure Settings where
  antiflood_enabled : Bool
  flood_limit : Nat
  flood_window_sec : Int
  flood_action_mute_sec : Int
  link_lock_enabled : Bool
  blocklist_enabled : Bool
  greetings_enabled : Bool
  welcome_text : String
  clean_commands_enabled : Bool
deriving DecidableEq

/-- Column DEFAULTs of the chat_settings table (bot.py lines 103-114): the row
INSERT OR IGNORE creates for a chat on first reference. -/
def default_settings : Settings :=
  { antiflood_enabled := true
    flood_limit := 6
    flood_window_sec := 8
    flood_action_mute_sec := 60
    link_lock_enabled := false
    blocklist_enabled := true
    greetings_enabled := true
    welcome_text := "Welcome, {mention}!"
    clean_commands_enabled := false }

/-- One chat administrator as reported by the external get_chat_administrators
collaborator (only the id is consumed by the core; the name stands for the rest
of the user object shown by mention_html). -/
structure AdminUser where
  id : Int
  name : String
deriving DecidableEq

/-- One ADMIN_CACHE entry: chat_id -> \x7b"ids": set(int), "ts": float\x7d
(bot.py line 40). -/
structure CacheEntry where
  ids : List Int
  ts : Int
deriving DecidableEq

/-- Result of one call to the external get_chat_administrators collaborator:
either the administrator list, or a raised exception. -/
abbrev FetchRes := Except Unit (List AdminUser)

/-- The program state the moderation core reads and writes: the sqlite tables
(chat_settings, warnings, blocklist) and the in-memory globals ADMIN_CACHE and
FLOOD_BUCKETS.  Missing warnings rows read as 0 (get_warn_count returns 0 when
no row exists), so the warnings table is a total map into Nat. -/
structure BotState where
  settingsDB : Int → Option Settings
  warnDB : Int × Int → Nat
  blocklistDB : Int → List (List Char)
  adminCache : Int → Option CacheEntry
  floodBuckets : Int × Int → List Int

/-- ensure_chat_row (bot.py lines 155-159): INSERT OR IGNORE a defaults row for
the chat; an existing row is kept unchanged. -/
def ensure_chat_row (st : BotState) (chat_id : Int) : BotState :=
  { st with settingsDB := fun c =>
      if c = chat_id then some ((st.settingsDB chat_id).getD default_settings)
      else st.settingsDB c }

/-- get_settings (bot.py lines 162-170): ensure the row exists, then read it. -/
def get_settings (st : BotState) (chat_id : Int) : Settings × BotState :=
  let st' := ensure_chat_row st chat_id
  ((st'.settingsDB chat_id).getD default_settings, st')

/-- get_warn_count (bot.py lines 545-551): the stored count, or 0 when no row
exists. -/
def get_warn_count (st : BotState) (chat_id user_id : Int) : Nat :=
  st.warnDB (chat_id, user_id)

/-- set_warn_count (bot.py lines 554-562): upsert the count for (chat, user). -/
def set_warn_count (st : BotState) (chat_id user_id : Int) (count : Nat) : BotState :=
  { st with warnDB := fun k => if k = (chat_id, user_id) then count else st.warnDB k }

/-- reset_warns (bot.py lines 565-569): DELETE the row; a subsequent
get_warn_count reads 0. -/
def reset_warns (st : BotState) (chat_id user_id : Int) : BotState :=
  { st with warnDB := fun k => if k = (chat_id, user_id) then 0 else st.warnDB k }

/-- warn_limit = 4 from cmd_warn (bot.py line 598): the 4th warning bans. -/
def warn_limit : Nat := 4

/-- Warning-ledger core of cmd_warn (bot.py lines 598-613): increment the
persisted count, and when the new count reaches warn_limit reset the row and
escalate (the caller then performs the ban).  Returns (new count, escalated,
new state). -/
def cmd_warn (st : BotState) (chat_id target : Int) : Nat × Bool × BotState :=
  let count := get_warn_count st chat_id target + 1
  let st1 := set_warn_count st chat_id target count
  if count ≥ warn_limit then (count, true, reset_warns st1 chat_id target)
  else (count, false, st1)

/-- refresh_admin_cache (bot.py lines 194-198): store the ids of the freshly
fetched administrator list together with the current time, replacing any
previous entry wholesale, and return the ids. -/
def refresh_admin_cache (st : BotState) (chat_id now : Int) (admins : List AdminUser) :
    List Int × BotState :=
  let admin_ids := admins.map (fun a => a.id)
  (admin_ids,
   { st with adminCache := fun c =>
       if c = chat_id then some { ids := admin_ids, ts := now } else st.adminCache c })

/-- get_admin_ids (bot.py lines 201-211): fresh cache entry -> return a copy of
its ids without fetching; otherwise one refresh attempt; on a raised exception
fall back to the stale entry if any, else the empty set.  The Nat component
counts calls made to the external get_chat_administrators collaborator. -/
def get_admin_ids (st : BotState) (chat_id now : Int) (fetch : FetchRes) :
    List Int × BotState × Nat :=
  match st.adminCache chat_id with
  | some cached =>
      if now - cached.ts < ADMIN_CACHE_TTL then (cached.ids, st, 0)
      else
        match fetch with
        | Except.ok admins =>
            let r := refresh_admin_cache st chat_id now admins
            (r.1, r.2, 1)
        | Except.error _ => (cached.ids, st, 1)
  | none =>
      match fetch with
      | Except.ok admins =>
          let r := refresh_admin_cache st chat_id now admins
          (r.1, r.2, 1)
      | Except.error _ => ([], st, 1)

/-- is_group_admin (bot.py lines 214-223) for updates that carry an effective
chat: owner fast path, private-chat fast path, then membership in
get_admin_ids. -/
def is_group_admin (st : BotState) (ct : ChatType) (chat_id user_id now : Int)
    (fetch : FetchRes) : Bool × BotState :=
  if is_owner user_id then (true, st)
  else if is_private ct then (true, st)
  else
    let r := get_admin_ids st chat_id now fetch
    (decide (user_id ∈ r.1), r.2.1)

/-- Ids displayed by cmd_admin (bot.py lines 372-376): one line per entry of
the externally fetched administrator list, in order. -/
def cmd_admin_listed (admins : List AdminUser) : List Int :=
  admins.map (fun a => a.id)

/-- Python str.lower applied characterwise (message text is modelled as a list
of characters). -/
def str_lower (t : List Char) : List Char := t.map Char.toLower

/-- Auxiliary for substring search: does the haystack start with the needle. -/
def str_starts : List Char → List Char → Bool
  | _, [] => true
  | [], _ :: _ => false
  | a :: hs, b :: ns => a == b && str_starts hs ns

/-- Python substring containment (the "needle in haystack" test): the needle
occurs contiguously somewhere in the haystack. -/
def str_has : List Char → List Char → Bool
  | [], needle => needle.isEmpty
  | a :: hs, needle => str_starts (a :: hs) needle || str_has hs needle

/-- The four alternatives of LINK_RE = (https?://|t.me/|www.) with the dots
taken literally as in the escaped pattern (bot.py line 46). -/
def LINK_PATTERNS : List (List Char) :=
  ["http://".data, "https://".data, "t.me/".data, "www.".data]

/-- LINK_RE.search with re.IGNORECASE: some alternative of the pattern occurs
in the lower-cased text. -/
def link_re_search (t : List Char) : Bool :=
  LINK_PATTERNS.any (fun p => str_has (str_lower t) p)

/-- extract_command (bot.py lines 226-231): empty unless the text starts with
the "/" marker; else the first whitespace-delimited token, cut at "@", with the
marker dropped and the rest lower-cased. -/
def extract_command (text : List Char) : List Char :=
  match text with
  | '/' :: _ =>
      let tok := text.takeWhile (fun c => !c.isWhitespace)
      let tok := tok.takeWhile (fun c => !(c == '@'))
      str_lower (tok.drop 1)
  | _ => []

/-- Outcome of group_command_gate for one command message: proceed means the
gate handler returned normally (later handlers for the message may run);
refuse means it sent the visible "You are not an admin." reply and raised
ApplicationHandlerStop, so no further handler for that message runs. -/
inductive GateResult where
  | proceed
  | refuse
deriving DecidableEq

/-- Command names the gate allows for every member (bot.py line 259). -/
def allowed_for_all : List (List Char) :=
  ["admin".data, "info".data, "help".data, "start".data]

/-- group_command_gate (bot.py lines 242-265) for command messages that carry a
message, a user and text: outside groups it is inert; the allow-list passes for
everyone; every other command requires is_group_admin, else the visible refusal
plus ApplicationHandlerStop. -/
def group_command_gate (st : BotState) (ct : ChatType) (chat_id user_id now : Int)
    (fetch : FetchRes) (text : List Char) : GateResult × BotState :=
  if !is_group ct then (GateResult.proceed, st)
  else
    let cmd := extract_command text
    if cmd ∈ allowed_for_all then (GateResult.proceed, st)
    else
      let r := is_group_admin st ct chat_id user_id now fetch
      if r.1 then (GateResult.proceed, r.2) else (GateResult.refuse, r.2)

/-- list_block (bot.py lines 783-789): the stored blocklist phrases of the
chat (already lower-cased by add_block; the ORDER BY only fixes display
order). -/
def list_block (st : BotState) (chat_id : Int) : List (List Char) :=
  st.blocklistDB chat_id

/-- filter_check (bot.py lines 821-851) for group text messages: settings
lookup, privilege exemption, then the link-lock check on the lower-cased text,
then the blocklist scan, each positive branch deleting the message (a
fire-and-forget external call) and returning true. -/
def filter_check (st : BotState) (ct : ChatType) (chat_id user_id now : Int)
    (fetch : FetchRes) (text : List Char) : Bool × BotState :=
  let sr := get_settings st chat_id
  let s := sr.1
  let ar := is_group_admin sr.2 ct chat_id user_id now fetch
  let st2 := ar.2
  if ar.1 then (false, st2)
  else
    let t := str_lower text
    if s.link_lock_enabled && link_re_search t then (true, st2)
    else if s.blocklist_enabled
        && (list_block st2 chat_id).any (fun p => !p.isEmpty && str_has t p) then
      (true, st2)
    else (false, st2)

/-- Which branch of filter_check fired, for stating the precedence of the two
checks: the link branch (bot.py line 834) is evaluated before the blocklist
branch (bot.py lines 841-849) on the same lower-cased text, and the first
positive branch returns. -/
inductive FilterReason where
  | link
  | blocklist_hit
deriving DecidableEq

/-- The branch structure of filter_check after the privilege exemption,
annotated with which check fired (isSome iff filter_check returns true for a
non-privileged sender; see filter_check_eq_reason). -/
def filter_reason (s : Settings) (blocked : List (List Char)) (text : List Char) :
    Option FilterReason :=
  let t := str_lower text
  if s.link_lock_enabled && link_re_search t then some FilterReason.link
  else if s.blocklist_enabled && blocked.any (fun p => !p.isEmpty && str_has t p) then
    some FilterReason.blocklist_hit
  else none

/-- Appending to a deque with maxlen = FLOOD_BUCKET_CAP: the new timestamp goes
to the right and the leftmost entries beyond the capacity are dropped. -/
def bucket_append (b : List Int) (t : Int) : List Int :=
  (b ++ [t]).drop (b.length + 1 - FLOOD_BUCKET_CAP)

/-- antiflood_check (bot.py lines 726-762) for group text messages: settings
lookup, the antiflood toggle, the privilege exemption, then append now to the
bounded bucket of (chat, user) and count the entries within the configured
window; reaching the configured limit mutes and deletes via fire-and-forget
external calls and returns true. -/
def antiflood_check (st : BotState) (ct : ChatType) (chat_id user_id now : Int)
    (fetch : FetchRes) : Bool × BotState :=
  let sr := get_settings st chat_id
  let s := sr.1
  if !s.antiflood_enabled then (false, sr.2)
  else
    let ar := is_group_admin sr.2 ct chat_id user_id now fetch
    let st2 := ar.2
    if ar.1 then (false, st2)
    else
      let bucket := bucket_append (st2.floodBuckets (chat_id, user_id)) now
      let st3 := { st2 with floodBuckets := fun k =>
        if k = (chat_id, user_id) then bucket else st2.floodBuckets k }
      let count := (bucket.filter (fun t => decide (now - t ≤ s.flood_window_sec))).length
      (decide (count ≥ s.flood_limit), st3)

/-- One antiflood_check per inbound message: each message comes with its
time.time() value and the admin-list fetch outcome its privilege check would
observe; results are collected in order. -/
def flood_run (ct : ChatType) (chat_id user_id : Int) :
    BotState → List (Int × FetchRes) → List Bool × BotState
  | st, [] => ([], st)
  | st, (now, f) :: rest =>
      let r := antiflood_check st ct chat_id user_id now f
      let rr := flood_run ct chat_id user_id r.2 rest
      (r.1 :: rr.1, rr.2)

/-- The chat's admin-cache entry, when one exists, does not list the user. -/
def CacheLacks (st : BotState) (chat_id user_id : Int) : Prop :=
  ∀ e : CacheEntry, st.adminCache chat_id = some e → user_id ∉ e.ids

/-- The external fetch outcome, when successful, does not list the user. -/
def FetchLacks (user_id : Int) (f : FetchRes) : Prop :=
  ∀ admins : List AdminUser, f = Except.ok admins → user_id ∉ admins.map (fun a => a.id)

/-- Freshly started process: empty tables, empty caches, empty buckets. -/
def st0 : BotState :=
  { settingsDB := fun _ => none
    warnDB := fun _ => 0
    blocklistDB := fun _ => []
    adminCache := fun _ => none
    floodBuckets := fun _ => [] }

/-- State whose chat 1 carries the default settings row. -/
def stW : BotState :=
  { st0 with settingsDB := fun c => if c = 1 then some default_settings else none }

/-- Six messages (the default flood_limit) sent within the default 8-second
window, each privilege check seeing a failed admin fetch. -/
def msgsW : List (Int × FetchRes) :=
  [(0, Except.error ()), (1, Except.error ()), (1, Except.error ()),
   (2, Except.error ()), (3, Except.error ()), (5, Except.error ())]

/-- Settings with a flood limit above the bucket capacity. -/
def s21 : Settings := { default_settings with flood_limit := 21, flood_window_sec := 100 }

/-- State whose chat 1 carries the limit-21 settings row. -/
def st21 : BotState :=
  { st0 with settingsDB := fun c => if c = 1 then some s21 else none }

/-- Twenty-one messages at one-second intervals, all inside the 100-second
window. -/
def msgs21 : List (Int × FetchRes) :=
  (List.range 21).map (fun i => ((i : Int), Except.error ()))

/-- A cache entry listing users 7 and 9, fetched at time 0. -/
def entA : CacheEntry := { ids := [7, 9], ts := 0 }

/-- State whose chat 1 carries the cache entry entA. -/
def stC : BotState :=
  { st0 with adminCache := fun c => if c = 1 then some entA else none }

/-- Settings with antiflood switched off. -/
def sOff : Settings := { default_settings with antiflood_enabled := false }

/-- State whose chat 1 carries the antiflood-off settings row. -/
def stDis : BotState :=
  { st0 with settingsDB := fun c => if c = 1 then some sOff else none }

/-- State with default settings and the phrase "spam" blocklisted in chat 1. -/
def stB : BotState :=
  { stW with blocklistDB := fun c => if c = 1 then ["spam".data] else [] }

/-- A message containing both a link and the blocklisted phrase. -/
def textB : List Char := "buy SPAM at www.example.com".data

theorem get_settings_fst {st : BotState} {c : Int} {s : Settings}
    (h : st.settingsDB c = some s) : (get_settings st c).1 = s := by
  simp [get_settings, ensure_chat_row, h]

theorem get_settings_snd_row {st : BotState} {c : Int} {s : Settings}
    (h : st.settingsDB c = some s) : ((get_settings st c).2).settingsDB c = some s := by
  simp [get_settings, ensure_chat_row, h]

theorem get_settings_warnDB (st : BotState) (c : Int) :
    ((get_settings st c).2).warnDB = st.warnDB := rfl

theorem get_settings_adminCache (st : BotState) (c : Int) :
    ((get_settings st c).2).adminCache = st.adminCache := rfl

theorem get_settings_blocklistDB (st : BotState) (c : Int) :
    ((get_settings st c).2).blocklistDB = st.blocklistDB := rfl

theorem get_settings_floodBuckets (st : BotState) (c : Int) :
    ((get_settings st c).2).floodBuckets = st.floodBuckets := rfl

theorem get_admin_ids_state (st : BotState) (c now : Int) (f : FetchRes) :
    ((get_admin_ids st c now f).2.1).settingsDB = st.settingsDB ∧
    ((get_admin_ids st c now f).2.1).warnDB = st.warnDB ∧
    ((get_admin_ids st c now f).2.1).blocklistDB = st.blocklistDB ∧
    ((get_admin_ids st c now f).2.1).floodBuckets = st.floodBuckets := by
  rcases hA : st.adminCache c with _ | e <;> rcases f with _ | adm <;>
    simp [get_admin_ids, refresh_admin_cache, hA] <;> split <;> simp

theorem refresh_admin_cache_lacks {u : Int} (st : BotState) (c now : Int)
    (adm : List AdminUser) (h : u ∉ adm.map (fun a => a.id)) :
    u ∉ (refresh_admin_cache st c now adm).1 ∧
    CacheLacks (refresh_admin_cache st c now adm).2 c u := by
  refine ⟨by simpa [refresh_admin_cache] using h, ?_⟩
  intro e he
  simp [refresh_admin_cache] at he
  rw [← he]
  simpa using h

theorem get_admin_ids_lacks {st : BotState} {c now : Int} {f : FetchRes} {u : Int}
    (hC : CacheLacks st c u) (hF : FetchLacks u f) :
    u ∉ (get_admin_ids st c now f).1 ∧
    CacheLacks (get_admin_ids st c now f).2.1 c u := by
  rcases hA : st.adminCache c with _ | e <;> rcases hf : f with _ | adm
  · simp [get_admin_ids, hA, hf]
    intro e he
    exact hC e he
  · have hm : u ∉ adm.map (fun a => a.id) := hF adm hf
    simpa [get_admin_ids, hA, hf] using refresh_admin_cache_lacks st c now adm hm
  · have he : u ∉ e.ids := hC e hA
    simp only [get_admin_ids, hA, hf]
    split
    · exact ⟨he, hC⟩
    · exact ⟨he, hC⟩
  · have hm : u ∉ adm.map (fun a => a.id) := hF adm hf
    simp only [get_admin_ids, hA, hf]
    split
    · exact ⟨hC e hA, hC⟩
    · simpa using refresh_admin_cache_lacks st c now adm hm

theorem is_group_admin_state (st : BotState) (ct : ChatType) (c u now : Int) (f : FetchRes) :
    ((is_group_admin st ct c u now f).2).settingsDB = st.settingsDB ∧
    ((is_group_admin st ct c u now f).2).warnDB = st.warnDB ∧
    ((is_group_admin st ct c u now f).2).blocklistDB = st.blocklistDB ∧
    ((is_group_admin st ct c u now f).2).floodBuckets = st.floodBuckets := by
  simp only [is_group_admin]
  split
  · simp
  · split
    · simp
    · exact get_admin_ids_state st c now f

theorem is_group_admin_nonpriv {st : BotState} {c u now : Int} {f : FetchRes}
    (hU : u ≠ OWNER_ID) (hC : CacheLacks st c u) (hF : FetchLacks u f) :
    (is_group_admin st ChatType.group c u now f).1 = false ∧
    CacheLacks (is_group_admin st ChatType.group c u now f).2 c u := by
  have ho : is_owner u = false := by
    simp [is_owner]
    exact hU
  have hl := @get_admin_ids_lacks st c now f u hC hF
  simp only [is_group_admin, ho, is_private, Bool.false_eq_true, if_false]
  exact ⟨by simpa using hl.1, hl.2⟩

/-- Claim C8: a brand-new chat (no settings row yet) reads back the default
settings record: antiflood on with limit 6, window 8 s, mute 60 s; link lock
off; blocklist on; greetings on; clean-commands off. -/
theorem claim_C8 (st : BotState) (chat_id : Int) (hnew : st.settingsDB chat_id = none) :
    (get_settings st chat_id).1 = default_settings ∧
    (get_settings st chat_id).1.antiflood_enabled = true ∧
    (get_settings st chat_id).1.flood_limit = 6 ∧
    (get_settings st chat_id).1.flood_window_sec = 8 ∧
    (get_settings st chat_id).1.flood_action_mute_sec = 60 ∧
    (get_settings st chat_id).1.link_lock_enabled = false ∧
    (get_settings st chat_id).1.blocklist_enabled = true ∧
    (get_settings st chat_id).1.greetings_enabled = true ∧
    (get_settings st chat_id).1.clean_commands_enabled = false := by
  have h1 : (get_settings st chat_id).1 = default_settings := by
    simp [get_settings, ensure_chat_row, hnew]
  simp [h1, default_settings]

theorem claim_C8_witness :
    st0.settingsDB 1 = none ∧ (get_settings st0 1).1 = default_settings :=
  ⟨rfl, (claim_C8 st0 1 rfl).1⟩

/-- Claim C7: with antiflood disabled in the chat's settings, antiflood_check
returns false and leaves every flood bucket unchanged (no timestamp is
recorded). -/
theorem claim_C7 (st : BotState) (ct : ChatType) (chat_id user_id now : Int)
    (f : FetchRes) (s : Settings) (hrow : st.settingsDB chat_id = some s)
    (hoff : s.antiflood_enabled = false) :
    (antiflood_check st ct chat_id user_id now f).1 = false ∧
    (antiflood_check st ct chat_id user_id now f).2.floodBuckets = st.floodBuckets := by
  have h1 : (get_settings st chat_id).1 = s := get_settings_fst hrow
  simp [antiflood_check, h1, hoff, get_settings_floodBuckets]

theorem claim_C7_witness :
    stDis.settingsDB 1 = some sOff ∧
    (antiflood_check stDis ChatType.group 1 2 0 (Except.error ())).1 = false ∧
    (antiflood_check stDis ChatType.group 1 2 0 (Except.error ())).2.floodBuckets
      = stDis.floodBuckets := by
  have h := claim_C7 stDis ChatType.group 1 2 0 (Except.error ()) sOff (by decide) (by decide)
  exact ⟨by decide, h.1, h.2⟩

theorem bucket_append_length_le (b : List Int) (t : Int) :
    (bucket_append b t).length ≤ FLOOD_BUCKET_CAP := by
  simp [bucket_append, FLOOD_BUCKET_CAP]
  omega

/-- Claim C10: because each flood bucket retains at most FLOOD_BUCKET_CAP = 20
timestamps, a chat whose configured flood_limit exceeds 20 can never reach the
limit, so antiflood_check returns false for every message regardless of
sending rate. -/
theorem claim_C10 (st : BotState) (ct : ChatType) (chat_id user_id now : Int)
    (f : FetchRes) (s : Settings) (hrow : st.settingsDB chat_id = some s)
    (hbig : FLOOD_BUCKET_CAP < s.flood_limit) :
    (antiflood_check st ct chat_id user_id now f).1 = false := by
  have h1 : (get_settings st chat_id).1 = s := get_settings_fst hrow
  simp only [antiflood_check, h1]
  split
  · rfl
  · split
    · rfl
    · have hc : ((bucket_append (((is_group_admin (get_settings st chat_id).2 ct chat_id
          user_id now f).2).floodBuckets (chat_id, user_id)) now).filter
            (fun t => decide (now - t ≤ s.flood_window_sec))).length < s.flood_limit := by
        calc ((bucket_append _ now).filter _).length
            ≤ (bucket_append _ now).length := List.length_filter_le _ _
          _ ≤ FLOOD_BUCKET_CAP := bucket_append_length_le _ now
          _ < s.flood_limit := hbig
      simpa using Nat.not_le.mpr hc

theorem claim_C10_witness :
    st21.settingsDB 1 = some s21 ∧ FLOOD_BUCKET_CAP < s21.flood_limit ∧
    (antiflood_check st21 ChatType.group 1 2 0 (Except.error ())).1 = false :=
  ⟨by decide, by decide,
   claim_C10 st21 ChatType.group 1 2 0 (Except.error ()) s21 (by decide) (by decide)⟩

/-- Claim C2: when the admin-list refresh raises, get_admin_ids returns the
stale cached id set with the cache (and the whole state) untouched when an
entry exists, and the empty set with the state untouched when none does. -/
theorem claim_C2 (st : BotState) (chat_id now : Int) :
    (∀ e : CacheEntry, st.adminCache chat_id = some e →
        (get_admin_ids st chat_id now (Except.error ())).1 = e.ids ∧
        (get_admin_ids st chat_id now (Except.error ())).2.1 = st) ∧
    (st.adminCache chat_id = none →
        (get_admin_ids st chat_id now (Except.error ())).1 = [] ∧
        (get_admin_ids st chat_id now (Except.error ())).2.1 = st) := by
  constructor
  · intro e he
    simp only [get_admin_ids, he]
    split
    · exact ⟨rfl, rfl⟩
    · exact ⟨rfl, rfl⟩
  · intro hn
    simp [get_admin_ids, hn]

theorem claim_C2_witness :
    stC.adminCache 1 = some entA ∧
    (get_admin_ids stC 1 9999 (Except.error ())).1 = entA.ids ∧
    (get_admin_ids stC 1 9999 (Except.error ())).2.1 = stC := by
  have h := (claim_C2 stC 1 9999).1 entA (by decide)
  exact ⟨by decide, h.1, h.2⟩

/-- Claim C6: with a cache entry younger than ADMIN_CACHE_TTL = 600 s,
get_admin_ids returns the cached ids without any external fetch (zero fetch
calls, state unchanged); once the TTL has elapsed, the next lookup makes
exactly one fetch attempt. -/
theorem claim_C6 (st : BotState) (chat_id now : Int) (e : CacheEntry)
    (hc : st.adminCache chat_id = some e) :
    (now - e.ts < ADMIN_CACHE_TTL →
        ∀ f : FetchRes, get_admin_ids st chat_id now f = (e.ids, st, 0)) ∧
    (ADMIN_CACHE_TTL ≤ now - e.ts →
        ∀ f : FetchRes, (get_admin_ids st chat_id now f).2.2 = 1) := by
  constructor
  · intro hfresh f
    simp only [get_admin_ids, hc]
    rw [if_pos hfresh]
  · intro hstale f
    simp only [get_admin_ids, hc]
    rw [if_neg (by omega)]
    cases f <;> rfl

theorem claim_C6_witness :
    stC.adminCache 1 = some entA ∧
    get_admin_ids stC 1 5 (Except.error ()) = (entA.ids, stC, 0) ∧
    (get_admin_ids stC 1 1000 (Except.ok [{ id := 7, name := "a" }])).2.2 = 1 := by
  refine ⟨by decide, ?_, ?_⟩
  · exact (claim_C6 stC 1 5 entA (by decide)).1 (by decide) (Except.error ())
  · exact (claim_C6 stC 1 1000 entA (by decide)).2 (by decide)
      (Except.ok [{ id := 7, name := "a" }])

/-- Claim C9: the owner identity OWNER_ID is privileged by is_group_admin in
every chat and for every cache state (including an empty cache and a failing
fetch), and cmd_admin lists exactly the externally reported administrator ids,
so the owner's unconditional privilege never surfaces as a listed admin id. -/
theorem claim_C9 :
    (∀ (st : BotState) (ct : ChatType) (chat_id now : Int) (f : FetchRes),
        (is_group_admin st ct chat_id OWNER_ID now f).1 = true) ∧
    (∀ admins : List AdminUser, (∀ a ∈ admins, a.id ≠ OWNER_ID) →
        OWNER_ID ∉ cmd_admin_listed admins) := by
  constructor
  · intro st ct chat_id now f
    simp [is_group_admin, is_owner]
  · intro admins h hmem
    simp only [cmd_admin_listed, List.mem_map] at hmem
    obtain ⟨a, ha, hid⟩ := hmem
    exact h a ha hid

theorem claim_C9_witness :
    (is_group_admin st0 ChatType.group 1 OWNER_ID 0 (Except.error ())).1 = true ∧
    OWNER_ID ∉ cmd_admin_listed [{ id := 7, name := "alice" }] :=
  ⟨claim_C9.1 st0 ChatType.group 1 0 (Except.error ()),
   claim_C9.2 [{ id := 7, name := "alice" }] (by decide)⟩

/-- Claim C1: cmd_warn increments the persisted warning count and returns the
new value; from count 0, the first three calls return 1, 2, 3 without
escalation, the fourth returns 4 with escalation and leaves the stored count
reset to 0; and after any cmd_warn the stored count is below the threshold 4,
so no count ≥ 4 persists. -/
theorem claim_C1 (st : BotState) (chat_id user_id : Int)
    (h0 : get_warn_count st chat_id user_id = 0) :
    ((cmd_warn st chat_id user_id).1 = 1 ∧
     (cmd_warn st chat_id user_id).2.1 = false) ∧
    ((cmd_warn (cmd_warn st chat_id user_id).2.2 chat_id user_id).1 = 2 ∧
     (cmd_warn (cmd_warn st chat_id user_id).2.2 chat_id user_id).2.1 = false) ∧
    ((cmd_warn (cmd_warn (cmd_warn st chat_id user_id).2.2 chat_id user_id).2.2
        chat_id user_id).1 = 3 ∧
     (cmd_warn (cmd_warn (cmd_warn st chat_id user_id).2.2 chat_id user_id).2.2
        chat_id user_id).2.1 = false) ∧
    ((cmd_warn (cmd_warn (cmd_warn (cmd_warn st chat_id user_id).2.2 chat_id
        user_id).2.2 chat_id user_id).2.2 chat_id user_id).1 = 4 ∧
     (cmd_warn (cmd_warn (cmd_warn (cmd_warn st chat_id user_id).2.2 chat_id
        user_id).2.2 chat_id user_id).2.2 chat_id user_id).2.1 = true ∧
     get_warn_count (cmd_warn (cmd_warn (cmd_warn (cmd_warn st chat_id user_id).2.2
        chat_id user_id).2.2 chat_id user_id).2.2 chat_id user_id).2.2
        chat_id user_id = 0) ∧
    (∀ (st' : BotState) (c u : Int),
        (cmd_warn st' c u).1 = get_warn_count st' c u + 1 ∧
        get_warn_count (cmd_warn st' c u).2.2 c u < warn_limit) := by
  simp only [get_warn_count] at h0
  refine ⟨?_, ?_, ?_, ?_, ?_⟩
  · simp [cmd_warn, get_warn_count, set_warn_count, reset_warns, warn_limit, h0]
  · simp [cmd_warn, get_warn_count, set_warn_count, reset_warns, warn_limit, h0]
  · simp [cmd_warn, get_warn_count, set_warn_count, reset_warns, warn_limit, h0]
  · simp [cmd_warn, get_warn_count, set_warn_count, reset_warns, warn_limit, h0]
  · intro st' c u
    by_cases h : 3 ≤ st'.warnDB (c, u)
    · simp [cmd_warn, h, get_warn_count, set_warn_count, reset_warns, warn_limit]
    · simp [cmd_warn, h, get_warn_count, set_warn_count, reset_warns, warn_limit]
      omega

theorem bucket_append_of_lt {b : List Int} (t : Int) (h : b.length < FLOOD_BUCKET_CAP) :
    bucket_append b t = b ++ [t] := by
  unfold bucket_append
  rw [show b.length + 1 - FLOOD_BUCKET_CAP = 0 by omega, List.drop_zero]

/-- One antiflood_check call for an enabled chat and a non-privileged sender:
the timestamp is appended to the bounded bucket, the result is the windowed
count reaching the limit, and the settings row and the cache-lacks invariant
survive. -/
theorem antiflood_step (st : BotState) (chat_id user_id now : Int) (f : FetchRes)
    (s : Settings) (hrow : st.settingsDB chat_id = some s)
    (hon : s.antiflood_enabled = true) (hU : user_id ≠ OWNER_ID)
    (hC : CacheLacks st chat_id user_id) (hF : FetchLacks user_id f) :
    (antiflood_check st ChatType.group chat_id user_id now f).1
      = decide (((bucket_append (st.floodBuckets (chat_id, user_id)) now).filter
          (fun t => decide (now - t ≤ s.flood_window_sec))).length ≥ s.flood_limit) ∧
    (antiflood_check st ChatType.group chat_id user_id now f).2.floodBuckets
        (chat_id, user_id)
      = bucket_append (st.floodBuckets (chat_id, user_id)) now ∧
    (antiflood_check st ChatType.group chat_id user_id now f).2.settingsDB chat_id
      = some s ∧
    CacheLacks (antiflood_check st ChatType.group chat_id user_id now f).2
      chat_id user_id := by
  have h1 : (get_settings st chat_id).1 = s := get_settings_fst hrow
  have hC1 : CacheLacks (get_settings st chat_id).2 chat_id user_id := by
    intro e he
    exact hC e (by rw [← get_settings_adminCache st chat_id]; exact he)
  have hnp := @is_group_admin_nonpriv (get_settings st chat_id).2 chat_id user_id
    now f hU hC1 hF
  have hst := is_group_admin_state (get_settings st chat_id).2 ChatType.group
    chat_id user_id now f
  have hfb : ((is_group_admin (get_settings st chat_id).2 ChatType.group chat_id
      user_id now f).2).floodBuckets = st.floodBuckets := by
    rw [hst.2.2.2, get_settings_floodBuckets]
  have hsdb : ((is_group_admin (get_settings st chat_id).2 ChatType.group chat_id
      user_id now f).2).settingsDB chat_id = some s := by
    rw [hst.1]
    exact get_settings_snd_row hrow
  simp only [antiflood_check, h1, hon, Bool.not_true, Bool.false_eq_true, if_false,
    hnp.1, hfb]
  refine ⟨?_, ?_, ?_, fun e he => hnp.2 e he⟩
  · simp
  · simp
  · exact hsdb

/-- Inductive core for claim C3: running one antiflood_check per message, with
the bucket holding the already-sent timestamps, yields at position i the
comparison of the running count against the limit. -/
theorem flood_run_spec (chat_id user_id : Int) (s : Settings)
    (hon : s.antiflood_enabled = true) (hU : user_id ≠ OWNER_ID)
    (hcap : s.flood_limit ≤ FLOOD_BUCKET_CAP) :
    ∀ (msgs : List (Int × FetchRes)) (done : List Int) (st : BotState),
      st.settingsDB chat_id = some s →
      CacheLacks st chat_id user_id →
      (∀ p ∈ msgs, FetchLacks user_id p.2) →
      st.floodBuckets (chat_id, user_id) = done →
      done.length + msgs.length = s.flood_limit →
      (∀ x ∈ done ++ msgs.map Prod.fst, ∀ y ∈ done ++ msgs.map Prod.fst,
          x - y ≤ s.flood_window_sec) →
      (flood_run ChatType.group chat_id user_id st msgs).1.length = msgs.length ∧
      ∀ i < msgs.length,
        ((flood_run ChatType.group chat_id user_id st msgs).1)[i]?
          = some (decide (done.length + i + 1 ≥ s.flood_limit)) := by
  intro msgs
  induction msgs with
  | nil =>
      intro done st _ _ _ _ _ _
      refine ⟨rfl, ?_⟩
      intro i hi
      simp at hi
  | cons hd rest ih =>
      intro done st hrow hC hF hbkt hlen hwin
      obtain ⟨now, f⟩ := hd
      have hstep := antiflood_step st chat_id user_id now f s hrow hon hU hC
        (hF (now, f) (by simp))
      have hdlt : done.length < FLOOD_BUCKET_CAP := by
        have h1 : done.length + (rest.length + 1) = s.flood_limit := by
          simpa using hlen
        omega
      have happ : bucket_append (st.floodBuckets (chat_id, user_id)) now
          = done ++ [now] := by
        rw [hbkt, bucket_append_of_lt now hdlt]
      have hnowmem : now ∈ done ++ ((now, f) :: rest).map Prod.fst := by
        simp
      have hfilter : ((done ++ [now]).filter
          (fun t => decide (now - t ≤ s.flood_window_sec))) = done ++ [now] := by
        rw [List.filter_eq_self]
        intro x hx
        have hxmem : x ∈ done ++ ((now, f) :: rest).map Prod.fst := by
          rcases List.mem_append.mp hx with h | h
          · exact List.mem_append.mpr (Or.inl h)
          · simp at h
            simp [h]
        simp only [decide_eq_true_eq]
        exact hwin now hnowmem x hxmem
      have hfst : (antiflood_check st ChatType.group chat_id user_id now f).1
          = decide (done.length + 1 ≥ s.flood_limit) := by
        rw [hstep.1, happ, hfilter]
        simp
      have hperm : done ++ List.map Prod.fst ((now, f) :: rest)
          = (done ++ [now]) ++ List.map Prod.fst rest := by
        rw [List.map_cons, List.append_cons]
      have hih := ih (done ++ [now])
        (antiflood_check st ChatType.group chat_id user_id now f).2
        hstep.2.2.1 hstep.2.2.2
        (fun p hp => hF p (List.mem_cons_of_mem _ hp))
        (by rw [hstep.2.1, happ])
        (by
          have h1 : done.length + (rest.length + 1) = s.flood_limit := by
            simpa using hlen
          have h2 : (done ++ [now]).length = done.length + 1 := by simp
          omega)
        (by
          intro x hx y hy
          rw [← hperm] at hx hy
          exact hwin x hx y hy)
      constructor
      · simp only [flood_run, List.length_cons]
        rw [hih.1]
      · intro i hi
        match i with
        | 0 =>
            simp only [flood_run, List.getElem?_cons_zero, hfst]
        | j + 1 =>
            simp only [flood_run, List.getElem?_cons_succ]
            have hj : j < rest.length := by
              simp at hi
              omega
            rw [(hih.2 j hj)]
            congr 1
            rw [decide_eq_decide]
            have h2 : (done ++ [now]).length = done.length + 1 := by simp
            omega

/-- Claim C3 (amended): for an antiflood-enabled chat, a non-privileged sender
and an initially empty bucket, provided the configured flood_limit does not
exceed the bucket capacity 20, sending exactly flood_limit messages within the
configured window makes antiflood_check return true on the limit-th message
and false on every earlier one. -/
theorem claim_C3_amended (st : BotState) (chat_id user_id : Int) (s : Settings)
    (msgs : List (Int × FetchRes))
    (hrow : st.settingsDB chat_id = some s)
    (hon : s.antiflood_enabled = true)
    (hU : user_id ≠ OWNER_ID)
    (hC : CacheLacks st chat_id user_id)
    (hF : ∀ p ∈ msgs, FetchLacks user_id p.2)
    (hempty : st.floodBuckets (chat_id, user_id) = [])
    (hlen : msgs.length = s.flood_limit)
    (hcap : s.flood_limit ≤ FLOOD_BUCKET_CAP)
    (hwin : ∀ x ∈ msgs.map Prod.fst, ∀ y ∈ msgs.map Prod.fst,
        x - y ≤ s.flood_window_sec) :
    ∀ i < msgs.length,
      ((flood_run ChatType.group chat_id user_id st msgs).1)[i]?
        = some (decide (i + 1 ≥ s.flood_limit)) := by
  have h := flood_run_spec chat_id user_id s hon hU hcap msgs [] st hrow hC hF
    hempty (by simpa using hlen) (by simpa using hwin)
  intro i hi
  simpa using h.2 i hi

/-- Claim C3 (counterexample to the claim as stated): with flood_limit = 21,
larger than the bucket capacity 20, and all 21 messages from a non-privileged
sender inside the 100-second window starting from an empty bucket, the
limit-th (21st) message still returns false, not true. -/
theorem claim_C3_counterexample :
    st21.settingsDB 1 = some s21 ∧
    s21.antiflood_enabled = true ∧
    st21.floodBuckets (1, 2) = [] ∧
    st21.adminCache 1 = none ∧
    (2 : Int) ≠ OWNER_ID ∧
    msgs21.length = s21.flood_limit ∧
    (∀ x ∈ msgs21.map Prod.fst, ∀ y ∈ msgs21.map Prod.fst,
        x - y ≤ s21.flood_window_sec) ∧
    ((flood_run ChatType.group 1 2 st21 msgs21).1)[s21.flood_limit - 1]?
      = some false := by
  decide

theorem claim_C3_witness :
    stW.settingsDB 1 = some default_settings ∧
    msgsW.length = default_settings.flood_limit ∧
    ((flood_run ChatType.group 1 2 stW msgsW).1)[0]? = some false ∧
    ((flood_run ChatType.group 1 2 stW msgsW).1)[5]? = some true := by
  have h := claim_C3_amended stW 1 2 default_settings msgsW (by decide) rfl
    (by decide)
    (by intro e he; simp [stW, st0] at he)
    (by
      intro p hp
      simp only [msgsW] at hp
      fin_cases hp <;> (intro adm hadm; simp at hadm))
    (by decide) (by decide) (by decide) (by decide)
  exact ⟨by decide, by decide, by simpa using h 0 (by decide),
    by simpa using h 5 (by decide)⟩

/-- Claim C4: in a group, a command whose extracted name is on the allow-list
(admin, info, help, start) passes the gate for every sender, while any other
command sent by a user for whom is_group_admin is false draws the visible
refusal and ApplicationHandlerStop, so no further handler for the message
runs. -/
theorem claim_C4 (st : BotState) (ct : ChatType) (chat_id user_id now : Int)
    (f : FetchRes) (text : List Char) (hg : is_group ct = true) :
    (extract_command text ∈ allowed_for_all →
        (group_command_gate st ct chat_id user_id now f text).1
          = GateResult.proceed) ∧
    (extract_command text ∉ allowed_for_all →
        (is_group_admin st ct chat_id user_id now f).1 = false →
        (group_command_gate st ct chat_id user_id now f text).1
          = GateResult.refuse) := by
  constructor
  · intro hmem
    simp [group_command_gate, hg, hmem]
  · intro hmem hadm
    simp [group_command_gate, hg, hmem, hadm]

theorem claim_C4_witness :
    (extract_command "/help@swipeemanagerbot".data ∈ allowed_for_all) ∧
    (group_command_gate stW ChatType.group 1 2 0 (Except.error ())
        "/help@swipeemanagerbot".data).1 = GateResult.proceed ∧
    (extract_command "/ban".data ∉ allowed_for_all) ∧
    (group_command_gate stW ChatType.group 1 2 0 (Except.error ()) "/ban".data).1
      = GateResult.refuse := by
  refine ⟨by decide, ?_, by decide, ?_⟩
  · exact (claim_C4 stW ChatType.group 1 2 0 (Except.error ())
      "/help@swipeemanagerbot".data rfl).1 (by decide)
  · exact (claim_C4 stW ChatType.group 1 2 0 (Except.error ()) "/ban".data rfl).2
      (by decide) (by decide)

/-- The value of filter_check for a non-privileged sender in a group is
determined by filter_reason on the chat's settings row and blocklist. -/
theorem filter_check_eq_reason (st : BotState) (chat_id user_id now : Int)
    (f : FetchRes) (text : List Char) (s : Settings)
    (hrow : st.settingsDB chat_id = some s) (hU : user_id ≠ OWNER_ID)
    (hC : CacheLacks st chat_id user_id) (hF : FetchLacks user_id f) :
    (filter_check st ChatType.group chat_id user_id now f text).1
      = (filter_reason s (st.blocklistDB chat_id) text).isSome := by
  have h1 : (get_settings st chat_id).1 = s := get_settings_fst hrow
  have hC1 : CacheLacks (get_settings st chat_id).2 chat_id user_id := by
    intro e he
    exact hC e (by rw [← get_settings_adminCache st chat_id]; exact he)
  have hadm := (@is_group_admin_nonpriv (get_settings st chat_id).2 chat_id user_id
    now f hU hC1 hF).1
  have hbl : ((is_group_admin (get_settings st chat_id).2 ChatType.group chat_id
      user_id now f).2).blocklistDB = st.blocklistDB := by
    rw [(is_group_admin_state _ _ _ _ _ _).2.2.1, get_settings_blocklistDB]
  simp only [filter_check, filter_reason, h1, hadm, list_block, hbl,
    Bool.false_eq_true, if_false]
  by_cases hl : s.link_lock_enabled && link_re_search (str_lower text)
  · simp [hl]
  · simp only [hl, if_false]
    by_cases hb : s.blocklist_enabled
        && (st.blocklistDB chat_id).any (fun p => !p.isEmpty && str_has (str_lower text) p)
    · simp [hb]
    · simp [hl, hb]

/-- Claim C5: the content filter runs the link check first (only when link
lock is on) and the blocklist check second (only when the blocklist is on),
stopping at the first match: a non-privileged user's message that contains
both a link and a non-empty blocklisted phrase is rejected via the link branch
when link lock is enabled, and still rejected via the blocklist branch when
link lock is disabled but the blocklist is enabled. -/
theorem claim_C5 (st : BotState) (chat_id user_id now : Int) (f : FetchRes)
    (text : List Char) (s : Settings)
    (hrow : st.settingsDB chat_id = some s) (hU : user_id ≠ OWNER_ID)
    (hC : CacheLacks st chat_id user_id) (hF : FetchLacks user_id f)
    (hlink : link_re_search (str_lower text) = true)
    (hphrase : ∃ p ∈ st.blocklistDB chat_id,
        p.isEmpty = false ∧ str_has (str_lower text) p = true) :
    (s.link_lock_enabled = true →
        filter_reason s (st.blocklistDB chat_id) text = some FilterReason.link ∧
        (filter_check st ChatType.group chat_id user_id now f text).1 = true) ∧
    (s.link_lock_enabled = false → s.blocklist_enabled = true →
        filter_reason s (st.blocklistDB chat_id) text
          = some FilterReason.blocklist_hit ∧
        (filter_check st ChatType.group chat_id user_id now f text).1 = true) := by
  have heq := filter_check_eq_reason st chat_id user_id now f text s hrow hU hC hF
  constructor
  · intro hon
    have hr : filter_reason s (st.blocklistDB chat_id) text = some FilterReason.link := by
      simp [filter_reason, hon, hlink]
    exact ⟨hr, by rw [heq, hr]; rfl⟩
  · intro hoff hbon
    have hany : (st.blocklistDB chat_id).any
        (fun p => !p.isEmpty && str_has (str_lower text) p) = true := by
      obtain ⟨p, hp, hne, hhas⟩ := hphrase
      exact List.any_eq_true.mpr ⟨p, hp, by simp [hne, hhas]⟩
    have hr : filter_reason s (st.blocklistDB chat_id) text
        = some FilterReason.blocklist_hit := by
      simp [filter_reason, hoff, hbon, hany]
    exact ⟨hr, by rw [heq, hr]; rfl⟩

theorem claim_C5_witness :
    stB.settingsDB 1 = some default_settings ∧
    default_settings.link_lock_enabled = false ∧
    default_settings.blocklist_enabled = true ∧
    link_re_search (str_lower textB) = true ∧
    filter_reason default_settings (stB.blocklistDB 1) textB
      = some FilterReason.blocklist_hit ∧
    (filter_check stB ChatType.group 1 2 0 (Except.error ()) textB).1 = true := by
  have h := (claim_C5 stB 1 2 0 (Except.error ()) textB default_settings
    (by decide) (by decide)
    (by intro e he; simp [stB, stW, st0] at he)
    (by intro admins h; simp at h)
    (by decide) (by decide)).2 rfl rfl
  exact ⟨by decide, rfl, rfl, by decide, h.1, h.2⟩

theorem claim_C1_witness :
    get_warn_count st0 5 6 = 0 ∧
    (cmd_warn st0 5 6).1 = 1 ∧
    (cmd_warn (cmd_warn (cmd_warn (cmd_warn st0 5 6).2.2 5 6).2.2 5 6).2.2 5 6).2.1
      = true ∧
    get_warn_count (cmd_warn (cmd_warn (cmd_warn (cmd_warn st0 5 6).2.2 5 6).2.2
      5 6).2.2 5 6).2.2 5 6 = 0 := by
  have h := claim_C1 st0 5 6 rfl
  exact ⟨rfl, h.1.1, (h.2.2.2.1).2.1, (h.2.2.2.1).2.2⟩

end PCBot
